import Mathlib

/-!
Verification of `command/acl/bindingrule/update/bindingrule_update.go`
(package `bindingruleupdate`): the `consul acl binding-rule update` command.

The command resolves a possibly-partial binding-rule ID, fetches the current
rule, computes the rule to submit (merge mode by default, overwrite mode under
`-no-merge`), and submits it.  We embed the data model (`api.ACLBindingRule`),
the parsed-flag state of the `cmd` struct, the planning logic of `Run`
(lines 129-161), and the whole `Run` control flow with the network
collaborators (API client, ID resolution, read, update) abstracted as data.
-/

/-- Embeds `api.ACLBindingRule` restricted to the fields this command touches.
`RoleBindType` is a string type (`api.BindingRuleRoleBindType`) in Go, so it is
a `String` here. -/
structure Record where
  ID : String
  IDPName : String
  Description : String
  RoleBindType : String
  RoleName : String
  Selector : String
deriving DecidableEq, Repr

/-- Embeds the flag-supplied part of the `cmd` struct after `flag.Parse`.
Each field is `some v` when the corresponding flag appeared on the command
line with value `v` (this is exactly what Go's `flag.Visit`, used by
`isFlagSet`, reports as set) and `none` when the flag was absent, in which
case the parsed value is the default registered in `init`. -/
structure CmdFlags where
  description : Option String
  selector : Option String
  roleBindType : Option String
  roleName : Option String
deriving DecidableEq, Repr

/-- Parsed value of `c.description`: the `-description` flag defaults to `""`
(`init`, the `StringVar` for `description`). -/
def parsedDescription (i : CmdFlags) : String := i.description.getD ""

/-- Parsed value of `c.selector`: the `-selector` flag defaults to `""`. -/
def parsedSelector (i : CmdFlags) : String := i.selector.getD ""

/-- Parsed value of `c.roleBindType`: the `-role-bind-type` flag defaults to
`string(api.BindingRuleRoleBindTypeService)`, i.e. `"service"` (`init`,
lines 68-73). -/
def parsedRoleBindType (i : CmdFlags) : String := i.roleBindType.getD "service"

/-- Parsed value of `c.roleName`: the `-role-name` flag defaults to `""`. -/
def parsedRoleName (i : CmdFlags) : String := i.roleName.getD ""

/-- Embeds `isFlagSet c.flags name` for the two flags `Run` queries:
`flag.Visit` visits exactly the flags that appeared on the command line. -/
def isFlagSetRoleBindType (i : CmdFlags) : Bool := i.roleBindType.isSome

/-- Embeds `isFlagSet c.flags "selector"`. -/
def isFlagSetSelector (i : CmdFlags) : Bool := i.selector.isSome

/-- Failure of the local planning step: `Run` prints
"Missing required '-role-name' flag" and exits 1. -/
inductive PlanError where
  | missingRequiredField (field : String)
deriving DecidableEq, Repr

/-- Embeds the `-no-merge` branch of `Run` (lines 130-144): reject an empty
role name, otherwise build a fresh `api.ACLBindingRule` whose `ID` is the
resolved `ruleID`, whose `IDPName` is copied from the fetched rule, and whose
remaining fields are the parsed flag values. -/
def planOverwrite (ruleID : String) (currentRule : Record) (i : CmdFlags) :
    Except PlanError Record :=
  if parsedRoleName i = "" then
    .error (.missingRequiredField "roleName")
  else
    .ok { ID := ruleID
          IDPName := currentRule.IDPName
          Description := parsedDescription i
          RoleBindType := parsedRoleBindType i
          RoleName := parsedRoleName i
          Selector := parsedSelector i }

/-- Embeds the merge branch of `Run` (lines 146-161): start from
`currentRule` (Go mutates it in place through the alias `rule`), replace
`Description`/`RoleName` only when the parsed value is non-empty, and replace
`RoleBindType`/`Selector` exactly when the flag was passed, empty values
included. -/
def planMerge (currentRule : Record) (i : CmdFlags) : Record :=
  let r0 := currentRule
  let r1 := if parsedDescription i ≠ "" then
              { r0 with Description := parsedDescription i } else r0
  let r2 := if parsedRoleName i ≠ "" then
              { r1 with RoleName := parsedRoleName i } else r1
  let r3 := if isFlagSetRoleBindType i then
              { r2 with RoleBindType := parsedRoleBindType i } else r2
  let r4 := if isFlagSetSelector i then
              { r3 with Selector := parsedSelector i } else r3
  r4

/-- Failure kinds of the identifier resolver (spec §4.1 / §7). -/
inductive ResolveError where
  | notFound
  | ambiguous
deriving DecidableEq, Repr

/-- Case-sensitive prefix test on character lists (the meaning of Go's
`strings.HasPrefix`), written as structural recursion so that it evaluates
on concrete strings. -/
def charsPfx : List Char → List Char → Bool
  | [], _ => true
  | _ :: _, [] => false
  | a :: as, b :: bs => a == b && charsPfx as bs

/-- `p` is a case-sensitive prefix of `s`. -/
def hasPfx (p s : String) : Bool := charsPfx p.data s.data

/-- Modelled from the spec: `acl.GetBindingRuleIDFromPartial`, called by `Run`
(line 113), lives in `command/acl`, outside the provided sources.  Spec §4.1:
treat the partial as a case-sensitive prefix, scan all known full
identifiers, and return the unique match; zero matches fail with `NotFound`,
two or more with `AmbiguousPrefix` (here `ResolveError.ambiguous`). -/
def resolve (pfx : String) (candidates : List String) :
    Except ResolveError String :=
  match candidates.filter (fun s => hasPfx pfx s) with
  | [] => .error .notFound
  | [c] => .ok c
  | _ :: _ :: _ => .error .ambiguous

/-- The distinct failure exits of `Run`, in source order: missing `-id`
(line 102), `APIClient` failure (line 107), `GetBindingRuleIDFromPartial`
failure (line 114), `BindingRuleRead` failure (line 120), rule not found
(line 123), missing `-role-name` under `-no-merge` (line 131), and
`BindingRuleUpdate` failure (line 164). -/
inductive RunError where
  | missingID
  | clientErr
  | resolveErr
  | fetchErr
  | notFound
  | missingRoleName
  | updateErr
deriving DecidableEq, Repr

/-- The network collaborators of `Run`, abstracted as data: whether
`c.http.APIClient()` succeeds, the outcome of
`acl.GetBindingRuleIDFromPartial`, the outcome of
`client.ACL().BindingRuleRead` (`Except.error` for a transport error,
`.ok none` when the rule is nil), and the outcome of
`client.ACL().BindingRuleUpdate` on the submitted rule. -/
structure World where
  clientOk : Bool
  resolveR : Except Unit String
  fetchR : Except Unit (Option Record)
  updateR : Record → Except Unit Record

/-- Outcome of one invocation of `Run`: `exit` is `.ok updated` exactly when
`Run` returns 0 (after printing the updated rule), and `submitted` records
the rule passed to `BindingRuleUpdate`, `none` when the call was never
reached. -/
structure RunResult where
  exit : Except RunError Record
  submitted : Option Record

/-- Embeds `(c *cmd) Run` (lines 97-172) from the point where the flags are
already parsed: `ruleIDArg` is `c.ruleID`, `noMerge` is `c.noMerge`, `i` the
remaining flag state, `w` the collaborators.  Each guard and its exit mirrors
the source order. -/
def run (ruleIDArg : String) (noMerge : Bool) (i : CmdFlags) (w : World) :
    RunResult :=
  if ruleIDArg = "" then ⟨.error .missingID, none⟩
  else if w.clientOk = false then ⟨.error .clientErr, none⟩
  else
    match w.resolveR with
    | .error _ => ⟨.error .resolveErr, none⟩
    | .ok ruleID =>
      match w.fetchR with
      | .error _ => ⟨.error .fetchErr, none⟩
      | .ok none => ⟨.error .notFound, none⟩
      | .ok (some currentRule) =>
        let planned : Except RunError Record :=
          if noMerge then
            (planOverwrite ruleID currentRule i).mapError
              (fun _ => .missingRoleName)
          else
            .ok (planMerge currentRule i)
        match planned with
        | .error e => ⟨.error e, none⟩
        | .ok rule =>
          match w.updateR rule with
          | .error _ => ⟨.error .updateErr, some rule⟩
          | .ok updated => ⟨.ok updated, some rule⟩

/-- The process exit status of `Run`: 0 on the success path, 1 on every
failure path (every `return 1` in the source). -/
def exitCode (res : RunResult) : Nat :=
  match res.exit with
  | .ok _ => 0
  | .error _ => 1

/-- A concrete stored rule used to instantiate the theorems below. -/
def sampleCurrent : Record :=
  { ID := "id1", IDPName := "idp1", Description := "old-desc",
    RoleBindType := "existing", RoleName := "old-role", Selector := "x==1" }

/-- Flag state where only `-role-name myrole` was passed. -/
def sampleNoOptInput : CmdFlags :=
  { description := none, selector := none, roleBindType := none,
    roleName := some "myrole" }

/-- Flag state where `-description d2`, an explicitly empty `-selector` and
`-role-name r2` were passed. -/
def sampleFullInput : CmdFlags :=
  { description := some "d2", selector := some "", roleBindType := none,
    roleName := some "r2" }

/-- Flag state where no optional flag was passed at all. -/
def sampleNoInput : CmdFlags :=
  { description := none, selector := none, roleBindType := none,
    roleName := none }

/-- Collaborators that all succeed, serving `sampleCurrent`. -/
def wOk : World :=
  { clientOk := true, resolveR := .ok "id1",
    fetchR := .ok (some sampleCurrent), updateR := fun r => .ok r }

/-- Collaborators where identifier resolution fails. -/
def wResolveFail : World :=
  { clientOk := true, resolveR := .error (),
    fetchR := .ok (some sampleCurrent), updateR := fun r => .ok r }

/-- `charsPfx` decides the prefix order on character lists. -/
theorem charsPfx_iff (p s : List Char) : charsPfx p s = true ↔ p <+: s := by
  induction p generalizing s with
  | nil => simp [charsPfx]
  | cons a as ih =>
    cases s with
    | nil => simp [charsPfx]
    | cons b bs => simp [charsPfx, List.cons_prefix_cons, ih]

/-- Normal form of the merge branch: each field of the merged rule as one
conditional, read off from the four sequential `if` statements of `Run`
(lines 148-160). -/
theorem planMerge_def (cur : Record) (i : CmdFlags) :
    planMerge cur i =
      { ID := cur.ID
        IDPName := cur.IDPName
        Description := if parsedDescription i ≠ "" then parsedDescription i
                       else cur.Description
        RoleBindType := if isFlagSetRoleBindType i then parsedRoleBindType i
                        else cur.RoleBindType
        RoleName := if parsedRoleName i ≠ "" then parsedRoleName i
                    else cur.RoleName
        Selector := if isFlagSetSelector i then parsedSelector i
                    else cur.Selector } := by
  obtain ⟨a, b, c, e, f, g⟩ := cur
  simp only [planMerge]
  split_ifs <;> rfl

/-- A `RunResult` has exit status 0 exactly when `Run` reached its success
return. -/
theorem exitCode_zero_iff (res : RunResult) :
    exitCode res = 0 ↔ ∃ r, res.exit = Except.ok r := by
  obtain ⟨e, s⟩ := res
  cases e <;> simp [exitCode]

/-- C1 (counterexample): with only `-role-name myrole` passed, overwrite mode
plans `RoleBindType = "service"` — the flag default from `init` — although
the user did not supply `-role-bind-type`, so an unsupplied optional field
does not become its type's zero value (the empty string) as the claim
states. -/
theorem overwrite_unset_roleBindType_cex :
    sampleNoOptInput.roleBindType = none
  ∧ planOverwrite "id1" sampleCurrent sampleNoOptInput = Except.ok
      { ID := "id1", IDPName := "idp1", Description := "",
        RoleBindType := "service", RoleName := "myrole", Selector := "" }
  ∧ ("service" : String) ≠ "" :=
  ⟨rfl, rfl, by decide⟩

/-- C1 (amended): in overwrite mode, whenever the parsed role name is
non-empty and the fetched rule carries the resolved ID, the planned rule is
freshly constructed with `ID` and `IDPName` from the fetched rule and the
four editable fields taken verbatim from the parsed flags; a flag the user
did not pass contributes its registered default, which is the empty string
for `-description` and `-selector` but `"service"` for `-role-bind-type`. -/
theorem overwrite_plan_spec (rid : String) (cur : Record) (i : CmdFlags)
    (hid : cur.ID = rid) (hrn : parsedRoleName i ≠ "") :
    planOverwrite rid cur i = Except.ok
      { ID := cur.ID
        IDPName := cur.IDPName
        Description := parsedDescription i
        RoleBindType := parsedRoleBindType i
        RoleName := parsedRoleName i
        Selector := parsedSelector i }
  ∧ (i.description = none → parsedDescription i = "")
  ∧ (i.selector = none → parsedSelector i = "")
  ∧ (i.roleBindType = none → parsedRoleBindType i = "service") := by
  refine ⟨?_, ?_, ?_, ?_⟩
  · simp [planOverwrite, hrn, hid]
  · intro h; simp [parsedDescription, h]
  · intro h; simp [parsedSelector, h]
  · intro h; simp [parsedRoleBindType, h]

/-- Witness for C1's amended theorem at `sampleCurrent` and
`sampleNoOptInput`. -/
theorem overwrite_plan_spec_witness :
    planOverwrite "id1" sampleCurrent sampleNoOptInput = Except.ok
      { ID := "id1", IDPName := "idp1", Description := "",
        RoleBindType := "service", RoleName := "myrole", Selector := "" } :=
  (overwrite_plan_spec "id1" sampleCurrent sampleNoOptInput rfl (by decide)).1

/-- C2: in merge mode, `RoleBindType` and `Selector` take the supplied value
exactly when the flag was explicitly passed (`some v`, including `v = ""`)
and keep the current rule's value otherwise. -/
theorem merge_presence_fields (cur : Record) (i : CmdFlags) :
    (planMerge cur i).RoleBindType = i.roleBindType.getD cur.RoleBindType
  ∧ (planMerge cur i).Selector = i.selector.getD cur.Selector := by
  rw [planMerge_def]
  constructor
  · cases h : i.roleBindType <;>
      simp [isFlagSetRoleBindType, parsedRoleBindType, h]
  · cases h : i.selector <;>
      simp [isFlagSetSelector, parsedSelector, h]

/-- C3: in merge mode, `Description` and `RoleName` are replaced exactly when
the parsed value is non-empty, and kept otherwise; in particular the spec's
Scenario C: description untouched because its empty value is
indistinguishable from absent, selector cleared because explicitly passed. -/
theorem merge_nonempty_fields (cur : Record) (i : CmdFlags) :
    ((planMerge cur i).Description =
       if parsedDescription i = "" then cur.Description else parsedDescription i)
  ∧ ((planMerge cur i).RoleName =
       if parsedRoleName i = "" then cur.RoleName else parsedRoleName i)
  ∧ planMerge
      { ID := "x", IDPName := "y", Description := "old",
        RoleBindType := "service", RoleName := "r", Selector := "x==1" }
      { description := none, selector := some "", roleBindType := none,
        roleName := none }
      = { ID := "x", IDPName := "y", Description := "old",
          RoleBindType := "service", RoleName := "r", Selector := "" } := by
  refine ⟨?_, ?_, rfl⟩
  · rw [planMerge_def]
    by_cases h : parsedDescription i = "" <;> simp [h]
  · rw [planMerge_def]
    by_cases h : parsedRoleName i = "" <;> simp [h]

/-- C4: in both modes the planned rule's `ID` and `IDPName` equal the fetched
rule's values (for overwrite mode under the store consistency assumption
that the fetched rule carries the resolved ID, which `BindingRuleRead`
guarantees); neither field is read from user input. -/
theorem plan_preserves_identity (rid : String) (cur : Record) (i : CmdFlags)
    (hid : cur.ID = rid) :
    ((planMerge cur i).ID = cur.ID ∧ (planMerge cur i).IDPName = cur.IDPName)
  ∧ (∀ r, planOverwrite rid cur i = Except.ok r →
       r.ID = cur.ID ∧ r.IDPName = cur.IDPName) := by
  refine ⟨⟨by rw [planMerge_def], by rw [planMerge_def]⟩, ?_⟩
  intro r h
  unfold planOverwrite at h
  split at h
  · exact absurd h (by simp)
  · cases h
    exact ⟨hid.symm, rfl⟩

/-- Witness for C4 at `sampleCurrent` and `sampleFullInput`, in merge mode
and on the record overwrite mode actually plans. -/
theorem plan_preserves_identity_witness :
    ((planMerge sampleCurrent sampleFullInput).ID = sampleCurrent.ID
      ∧ (planMerge sampleCurrent sampleFullInput).IDPName
          = sampleCurrent.IDPName)
  ∧ (({ ID := "id1", IDPName := "idp1", Description := "d2",
        RoleBindType := "service", RoleName := "r2",
        Selector := "" } : Record).ID = sampleCurrent.ID
      ∧ ({ ID := "id1", IDPName := "idp1", Description := "d2",
           RoleBindType := "service", RoleName := "r2",
           Selector := "" } : Record).IDPName = sampleCurrent.IDPName) :=
  ⟨(plan_preserves_identity "id1" sampleCurrent sampleFullInput rfl).1,
   (plan_preserves_identity "id1" sampleCurrent sampleFullInput rfl).2 _ rfl⟩

/-- C5: the resolver's match predicate is the case-sensitive prefix order,
and `resolve` returns the unique matching candidate, fails with `notFound`
on zero matches, and fails with `ambiguous` on two or more matches. -/
theorem resolve_spec (pfx : String) (cs : List String) (hp : pfx ≠ "") :
    (∀ s, hasPfx pfx s = true ↔ pfx.data <+: s.data)
  ∧ (∀ c, cs.filter (fun s => hasPfx pfx s) = [c] →
       resolve pfx cs = Except.ok c)
  ∧ (cs.filter (fun s => hasPfx pfx s) = [] →
       resolve pfx cs = Except.error ResolveError.notFound)
  ∧ (2 ≤ (cs.filter (fun s => hasPfx pfx s)).length →
       resolve pfx cs = Except.error ResolveError.ambiguous) := by
  refine ⟨fun s => charsPfx_iff pfx.data s.data, ?_, ?_, ?_⟩
  · intro c h; simp only [resolve, h]
  · intro h; simp only [resolve, h]
  · intro h
    rcases hl : cs.filter (fun s => hasPfx pfx s) with _ | ⟨a, _ | ⟨b, t⟩⟩
    · rw [hl] at h; simp at h
    · rw [hl] at h; simp at h
    · simp only [resolve, hl]

/-- Witness for C5: the spec's Scenario B resolves a unique prefix match. -/
theorem resolve_spec_witness :
    resolve "43cb72df" ["43cb72df-aaa"] = Except.ok "43cb72df-aaa" :=
  (resolve_spec "43cb72df" ["43cb72df-aaa"] (by decide)).2.1
    "43cb72df-aaa" (by decide)

/-- C6: under `-no-merge` with an empty parsed role name, once resolution and
fetch have succeeded `Run` reports the missing `-role-name` flag, exits 1,
and never calls `BindingRuleUpdate`. -/
theorem overwrite_missing_roleName_fails (a rid : String) (cur : Record)
    (i : CmdFlags) (w : World) (ha : a ≠ "") (hc : w.clientOk = true)
    (hr : w.resolveR = Except.ok rid) (hf : w.fetchR = Except.ok (some cur))
    (hrn : parsedRoleName i = "") :
    (run a true i w).exit = Except.error RunError.missingRoleName
  ∧ exitCode (run a true i w) = 1
  ∧ (run a true i w).submitted = none := by
  refine ⟨?_, ?_, ?_⟩ <;>
    simp [run, exitCode, ha, hc, hr, hf, planOverwrite, hrn, Except.mapError]

/-- Witness for C6 with all-succeeding collaborators and no `-role-name`. -/
theorem overwrite_missing_roleName_fails_witness :
    (run "id1" true sampleNoInput wOk).exit
      = Except.error RunError.missingRoleName
  ∧ exitCode (run "id1" true sampleNoInput wOk) = 1
  ∧ (run "id1" true sampleNoInput wOk).submitted = none :=
  overwrite_missing_roleName_fails "id1" "id1" sampleCurrent sampleNoInput
    wOk (by decide) rfl rfl rfl rfl

/-- C7: `Run` exits 0 exactly when the pipeline reaches a successful update,
every error exit returns 1, and each failing stage — missing `-id`, failed
resolution, failed fetch, rule not found, missing `-role-name` under
`-no-merge`, failed submission — yields its error. -/
theorem run_exit_status (a : String) (nm : Bool) (i : CmdFlags) (w : World) :
    (exitCode (run a nm i w) = 0 ↔ ∃ r, (run a nm i w).exit = Except.ok r)
  ∧ (∀ e, (run a nm i w).exit = Except.error e → exitCode (run a nm i w) = 1)
  ∧ (a = "" → (run a nm i w).exit = Except.error RunError.missingID)
  ∧ (a ≠ "" → w.clientOk = true → w.resolveR = Except.error () →
       (run a nm i w).exit = Except.error RunError.resolveErr)
  ∧ (∀ rid, a ≠ "" → w.clientOk = true → w.resolveR = Except.ok rid →
       w.fetchR = Except.error () →
       (run a nm i w).exit = Except.error RunError.fetchErr)
  ∧ (∀ rid, a ≠ "" → w.clientOk = true → w.resolveR = Except.ok rid →
       w.fetchR = Except.ok none →
       (run a nm i w).exit = Except.error RunError.notFound)
  ∧ (∀ rid cur, a ≠ "" → w.clientOk = true → w.resolveR = Except.ok rid →
       w.fetchR = Except.ok (some cur) → nm = true → parsedRoleName i = "" →
       (run a nm i w).exit = Except.error RunError.missingRoleName)
  ∧ (∀ rid cur, a ≠ "" → w.clientOk = true → w.resolveR = Except.ok rid →
       w.fetchR = Except.ok (some cur) → nm = false →
       w.updateR (planMerge cur i) = Except.error () →
       (run a nm i w).exit = Except.error RunError.updateErr) := by
  refine ⟨exitCode_zero_iff _, ?_, ?_, ?_, ?_, ?_, ?_, ?_⟩
  · intro e h; simp [exitCode, h]
  · intro h; simp [run, h]
  · intro ha hc hr; simp [run, ha, hc, hr]
  · intro rid ha hc hr hf; simp [run, ha, hc, hr, hf]
  · intro rid ha hc hr hf; simp [run, ha, hc, hr, hf]
  · intro rid cur ha hc hr hf hnm hrn
    simp [run, ha, hc, hr, hf, hnm, planOverwrite, hrn, Except.mapError]
  · intro rid cur ha hc hr hf hnm hu
    simp [run, ha, hc, hr, hf, hnm, hu]

/-- Witness for C7: without `-id` the command fails with the missing-ID
error. -/
theorem run_exit_status_witness :
    (run "" false sampleNoInput wOk).exit
      = Except.error RunError.missingID :=
  (run_exit_status "" false sampleNoInput wOk).2.2.1 rfl

/-- C8: merge planning is idempotent — re-running the merge computation on
its own output (what a second in-place mutation of the fetched rule would
see) with the same flags yields the same rule, so repeated application is
deterministic. -/
theorem planMerge_idem (cur : Record) (i : CmdFlags) :
    planMerge (planMerge cur i) i = planMerge cur i := by
  simp only [planMerge_def]
  by_cases h1 : parsedDescription i = "" <;>
  by_cases h2 : parsedRoleName i = "" <;>
  by_cases h3 : isFlagSetRoleBindType i = true <;>
  by_cases h4 : isFlagSetSelector i = true <;>
  simp [h1, h2, h3, h4]

/-- C9: in merge mode, when the parsed description and role name are empty
and neither `-role-bind-type` nor `-selector` was passed, the planned rule
is the fetched rule unchanged in every field. -/
theorem merge_no_input_identity (cur : Record) (i : CmdFlags)
    (hd : parsedDescription i = "") (hrn : parsedRoleName i = "")
    (hrbt : i.roleBindType = none) (hsel : i.selector = none) :
    planMerge cur i = cur := by
  rw [planMerge_def]
  simp [hd, hrn, isFlagSetRoleBindType, isFlagSetSelector, hrbt, hsel]

/-- Witness for C9 at `sampleCurrent` with no flags passed. -/
theorem merge_no_input_identity_witness :
    planMerge sampleCurrent sampleNoInput = sampleCurrent :=
  merge_no_input_identity sampleCurrent sampleNoInput rfl rfl rfl rfl

/-- C10: with `-no-merge` and an empty parsed role name, the missing
`-role-name` error is reported exactly when resolution and fetch both
succeed; a resolution failure, fetch failure, or missing rule is reported
instead and the role-name validation is never reached. -/
theorem overwrite_error_precedence (a : String) (i : CmdFlags) (w : World)
    (ha : a ≠ "") (hc : w.clientOk = true) (hrn : parsedRoleName i = "") :
    (w.resolveR = Except.error () →
       (run a true i w).exit = Except.error RunError.resolveErr)
  ∧ (∀ rid, w.resolveR = Except.ok rid → w.fetchR = Except.error () →
       (run a true i w).exit = Except.error RunError.fetchErr)
  ∧ (∀ rid, w.resolveR = Except.ok rid → w.fetchR = Except.ok none →
       (run a true i w).exit = Except.error RunError.notFound)
  ∧ (∀ rid cur, w.resolveR = Except.ok rid →
       w.fetchR = Except.ok (some cur) →
       (run a true i w).exit = Except.error RunError.missingRoleName) := by
  refine ⟨?_, ?_, ?_, ?_⟩
  · intro hr; simp [run, ha, hc, hr]
  · intro rid hr hf; simp [run, ha, hc, hr, hf]
  · intro rid hr hf; simp [run, ha, hc, hr, hf]
  · intro rid cur hr hf
    simp [run, ha, hc, hr, hf, planOverwrite, hrn, Except.mapError]

/-- Witness for C10: a resolution failure masks the missing role name. -/
theorem overwrite_error_precedence_witness :
    (run "id1" true sampleNoInput wResolveFail).exit
      = Except.error RunError.resolveErr :=
  (overwrite_error_precedence "id1" sampleNoInput wResolveFail
    (by decide) rfl rfl).1 rfl
